import Mathlib

/-
Shallow embedding of the cxcen/matching-engine repository (Rust).

Source files embedded here:
  src/types.rs      (OrderType, OrderSide, OrderStatus, Order, Trade,
                     OrderBook, OrderBookEntry)
  src/commands.rs   (PlaceOrderCommand, CancelOrderCommand, OrderCommand)
  src/events.rs     (the six event payloads and the OrderEvent union)
  src/event_store.rs (InMemoryEventStore as an association list keyed
                     by order id, save_events appending per event)
  src/engine.rs     (MatchingEngine: handle_command, handle_place_order,
                     handle_cancel_order, validate_order, match_order,
                     create_trade, get_order_book)
  src/orderbook.rs  (SkipListOrderBook: the node graph and the level
                     search loop of add_order)

Modelling conventions:
  Uuid        -> Nat; Uuid::new_v4 draws from a supply counter carried in
                 the engine state (fresh ids), so randomness becomes an
                 explicit id source.
  Decimal     -> Rat (rust_decimal is exact fixed point decimal
                 arithmetic, a subring of the rationals).
  DateTime    -> Nat (timestamps are carried, never computed with).
  DashMap     -> association list with insert-or-replace and lookup.
  async/await -> all embedded functions are pure; the single await point
                 (save_events on the in-memory store) is modelled by the
                 corresponding pure log update.
  loops       -> fuel-indexed structural recursion: the Rust while loops
                 of match_order and add_order have no a priori
                 termination argument (and indeed add_order's search
                 loop does not terminate), so each is given an explicit
                 fuel parameter; running out of fuel is observable.
  todo!()     -> a distinguished panicked outcome in CmdResult.
-/

namespace MatchEngine

abbrev Uuid := Nat

abbrev Decimal := Rat

abbrev Timestamp := Nat

/-- Embeds enum OrderType of src/types.rs. -/
inductive OrderType where
  | Market
  | Limit
  | StopLoss
  | TakeProfit
  | Iceberg
  | TrailingStop
  deriving DecidableEq

/-- Embeds enum OrderSide of src/types.rs. -/
inductive OrderSide where
  | Buy
  | Sell
  deriving DecidableEq

/-- Embeds enum OrderStatus of src/types.rs. -/
inductive OrderStatus where
  | Pending
  | Active
  | PartiallyFilled
  | Filled
  | Canceled
  | Rejected
  deriving DecidableEq

/-- Embeds struct Order of src/types.rs. -/
structure Order where
  id : Uuid
  user_id : Uuid
  symbol : String
  order_type : OrderType
  side : OrderSide
  price : Option Decimal
  quantity : Decimal
  filled_quantity : Decimal
  status : OrderStatus
  created_at : Timestamp
  updated_at : Timestamp
  iceberg_visible_quantity : Option Decimal
  stop_price : Option Decimal
  trailing_stop_price : Option Decimal
  deriving DecidableEq

/-- Embeds struct Trade of src/types.rs. -/
structure Trade where
  id : Uuid
  symbol : String
  price : Decimal
  quantity : Decimal
  side : OrderSide
  taker_order_id : Uuid
  maker_order_id : Uuid
  created_at : Timestamp
  deriving DecidableEq

/-- Embeds struct OrderBookEntry of src/types.rs. -/
structure OrderBookEntry where
  price : Decimal
  quantity : Decimal
  order_count : Nat
  deriving DecidableEq

/-- Embeds struct OrderBook of src/types.rs (plain bid and ask entry
vectors; this is the type stored in the engine's order_books map). -/
structure OrderBook where
  symbol : String
  bids : List OrderBookEntry
  asks : List OrderBookEntry
  deriving DecidableEq

/-- Embeds struct PlaceOrderCommand of src/commands.rs. -/
structure PlaceOrderCommand where
  order_id : Uuid
  user_id : Uuid
  symbol : String
  order_type : OrderType
  side : OrderSide
  price : Option Decimal
  quantity : Decimal
  iceberg_visible_quantity : Option Decimal
  stop_price : Option Decimal
  trailing_stop_price : Option Decimal
  timestamp : Timestamp
  deriving DecidableEq

/-- Embeds struct CancelOrderCommand of src/commands.rs. -/
structure CancelOrderCommand where
  order_id : Uuid
  user_id : Uuid
  symbol : String
  timestamp : Timestamp
  deriving DecidableEq

/-- Embeds enum OrderCommand of src/commands.rs. -/
inductive OrderCommand where
  | PlaceOrder (cmd : PlaceOrderCommand)
  | CancelOrder (cmd : CancelOrderCommand)
  deriving DecidableEq

/-- Embeds struct OrderPlacedEvent of src/events.rs. -/
structure OrderPlacedEvent where
  order_id : Uuid
  user_id : Uuid
  symbol : String
  order_type : OrderType
  side : OrderSide
  price : Option Decimal
  quantity : Decimal
  status : OrderStatus
  timestamp : Timestamp
  deriving DecidableEq

/-- Embeds struct OrderCanceledEvent of src/events.rs. -/
structure OrderCanceledEvent where
  order_id : Uuid
  user_id : Uuid
  symbol : String
  timestamp : Timestamp
  deriving DecidableEq

/-- Embeds struct OrderUpdatedEvent of src/events.rs. -/
structure OrderUpdatedEvent where
  order_id : Uuid
  user_id : Uuid
  symbol : String
  new_price : Option Decimal
  new_quantity : Option Decimal
  timestamp : Timestamp
  deriving DecidableEq

/-- Embeds struct OrderMatchedEvent of src/events.rs. -/
structure OrderMatchedEvent where
  order_id : Uuid
  matched_order_id : Uuid
  symbol : String
  price : Decimal
  quantity : Decimal
  side : OrderSide
  timestamp : Timestamp
  deriving DecidableEq

/-- Embeds struct OrderPartiallyFilledEvent of src/events.rs. -/
structure OrderPartiallyFilledEvent where
  order_id : Uuid
  symbol : String
  filled_quantity : Decimal
  remaining_quantity : Decimal
  timestamp : Timestamp
  deriving DecidableEq

/-- Embeds struct OrderFilledEvent of src/events.rs. -/
structure OrderFilledEvent where
  order_id : Uuid
  symbol : String
  filled_quantity : Decimal
  timestamp : Timestamp
  deriving DecidableEq

/-- Embeds enum OrderEvent of src/events.rs. -/
inductive OrderEvent where
  | OrderPlaced (e : OrderPlacedEvent)
  | OrderCanceled (e : OrderCanceledEvent)
  | OrderUpdated (e : OrderUpdatedEvent)
  | OrderMatched (e : OrderMatchedEvent)
  | OrderPartiallyFilled (e : OrderPartiallyFilledEvent)
  | OrderFilled (e : OrderFilledEvent)
  deriving DecidableEq

/-- Association list lookup; embeds DashMap get / get_mut (read part). -/
def assocLookup {β : Type} (k : String) : List (String × β) → Option β
  | [] => none
  | (k2, v) :: rest => if k = k2 then some v else assocLookup k rest

/-- Association list lookup keyed by Uuid; embeds DashMap get. -/
def assocLookupId {β : Type} (k : Uuid) : List (Uuid × β) → Option β
  | [] => none
  | (k2, v) :: rest => if k = k2 then some v else assocLookupId k rest

/-- Association list insert-or-replace; embeds DashMap insert. -/
def assocInsert {β : Type} (k : Uuid) (v : β) : List (Uuid × β) → List (Uuid × β)
  | [] => [(k, v)]
  | (k2, v2) :: rest =>
      if k = k2 then (k, v) :: rest else (k2, v2) :: assocInsert k v rest

/-- Order id under which InMemoryEventStore.save_events files an event
(the match in src/event_store.rs lines 31-38). -/
def eventOrderId : OrderEvent → Uuid
  | .OrderPlaced e => e.order_id
  | .OrderCanceled e => e.order_id
  | .OrderUpdated e => e.order_id
  | .OrderMatched e => e.order_id
  | .OrderPartiallyFilled e => e.order_id
  | .OrderFilled e => e.order_id

/-- Appends one event to the per-order-id vector, creating the entry if
absent; embeds self.events.entry(order_id).or_insert_with(Vec::new).push. -/
def pushEvent (k : Uuid) (e : OrderEvent) :
    List (Uuid × List OrderEvent) → List (Uuid × List OrderEvent)
  | [] => [(k, [e])]
  | (k2, es) :: rest =>
      if k = k2 then (k2, es ++ [e]) :: rest else (k2, es) :: pushEvent k e rest

/-- Embeds InMemoryEventStore.save_events of src/event_store.rs: each
event in the batch is appended under its own order id, in batch order. -/
def saveEvents (events : List OrderEvent)
    (log : List (Uuid × List OrderEvent)) : List (Uuid × List OrderEvent) :=
  events.foldl (fun l e => pushEvent (eventOrderId e) e l) log

/-- Embeds struct MatchingEngine of src/engine.rs, with the
InMemoryEventStore of src/event_store.rs as the event_store field and a
supply counter for the ids that Uuid::new_v4 generates. -/
structure EngineState where
  order_books : List (String × OrderBook)
  orders : List (Uuid × Order)
  trades : List (Uuid × Trade)
  event_log : List (Uuid × List OrderEvent)
  fresh : Nat
  deriving DecidableEq

/-- Embeds MatchingEngine::new: every map empty. -/
def initEngine : EngineState :=
  { order_books := [], orders := [], trades := [], event_log := [], fresh := 0 }

/-- Outcome of one handle_command call: Ok(events), Err(msg), or a
panic (the todo! in handle_cancel_order). -/
inductive CmdResult where
  | ok (events : List OrderEvent)
  | err (msg : String)
  | panicked
  deriving DecidableEq

/-- Embeds MatchingEngine::validate_order of src/engine.rs lines 106-135:
only type-specific field presence is checked; quantity is not examined. -/
def validate_order (cmd : PlaceOrderCommand) : Except String Unit :=
  match cmd.order_type with
  | .Market =>
      if cmd.price.isSome then
        .error "Market orders should not have a price"
      else .ok ()
  | .Limit =>
      if cmd.price.isNone then
        .error "Limit orders must have a price"
      else .ok ()
  | .StopLoss =>
      if cmd.stop_price.isNone then
        .error "Stop orders must have a stop price"
      else .ok ()
  | .TakeProfit =>
      if cmd.stop_price.isNone then
        .error "Stop orders must have a stop price"
      else .ok ()
  | .Iceberg =>
      if cmd.iceberg_visible_quantity.isNone then
        .error "Iceberg orders must have a visible quantity"
      else .ok ()
  | .TrailingStop =>
      if cmd.trailing_stop_price.isNone then
        .error "Trailing stop orders must have a trailing stop price"
      else .ok ()

/-- The Order built by handle_place_order from the command
(src/engine.rs lines 41-57). -/
def orderOfCmd (cmd : PlaceOrderCommand) : Order :=
  { id := cmd.order_id
    user_id := cmd.user_id
    symbol := cmd.symbol
    order_type := cmd.order_type
    side := cmd.side
    price := cmd.price
    quantity := cmd.quantity
    filled_quantity := 0
    status := .Pending
    created_at := cmd.timestamp
    updated_at := cmd.timestamp
    iceberg_visible_quantity := cmd.iceberg_visible_quantity
    stop_price := cmd.stop_price
    trailing_stop_price := cmd.trailing_stop_price }

/-- The OrderPlacedEvent built in handle_place_order
(src/engine.rs lines 62-72). -/
def placedEventOf (order : Order) : OrderPlacedEvent :=
  { order_id := order.id
    user_id := order.user_id
    symbol := order.symbol
    order_type := order.order_type
    side := order.side
    price := order.price
    quantity := order.quantity
    status := order.status
    timestamp := order.created_at }

/-- The OrderMatchedEvent built from a trade in handle_place_order
(src/engine.rs lines 78-86). -/
def matchedEventOf (t : Trade) : OrderMatchedEvent :=
  { order_id := t.taker_order_id
    matched_order_id := t.maker_order_id
    symbol := t.symbol
    price := t.price
    quantity := t.quantity
    side := t.side
    timestamp := t.created_at }

/-- Embeds MatchingEngine::create_trade of src/engine.rs lines 235-254:
the trade id and the maker_order_id are BOTH freshly generated uuids
(supply and supply + 1); the source comment on the maker field reads
"This should be the matched order's ID". The resting order matched
against is not passed in at all. -/
def create_trade (order : Order) (price quantity : Decimal)
    (side : OrderSide) (supply : Nat) (now : Timestamp) : Trade :=
  { id := supply
    symbol := order.symbol
    price := price
    quantity := quantity
    side := side
    taker_order_id := order.id
    maker_order_id := supply + 1
    created_at := now }

/-- Embeds the Buy arm of the while loop in MatchingEngine::match_order
(src/engine.rs lines 141-180). The book is never mutated by the loop, so
asks.first() is the same entry on every iteration; the loop exits only
when remaining_quantity reaches zero, the ask side is empty, or a limit
price fails to cross. A Limit order whose price field is None, or a best
entry of zero quantity, makes no progress; the fuel parameter makes that
observable. Returns the trades pushed and the final uuid supply. -/
def matchLoopBuy (order : Order) (asks : List OrderBookEntry)
    (now : Timestamp) : Nat → Decimal → Nat → List Trade × Nat
  | 0, _, supply => ([], supply)
  | fuel + 1, remaining, supply =>
    if 0 < remaining then
      match asks.head? with
      | some best_ask =>
        match order.order_type with
        | .Market =>
            let tq := min remaining best_ask.quantity
            let t := create_trade order best_ask.price tq .Buy supply now
            let r := matchLoopBuy order asks now fuel (remaining - tq) (supply + 2)
            (t :: r.1, r.2)
        | .Limit =>
            match order.price with
            | some p =>
                if best_ask.price ≤ p then
                  let tq := min remaining best_ask.quantity
                  let t := create_trade order best_ask.price tq .Buy supply now
                  let r := matchLoopBuy order asks now fuel (remaining - tq) (supply + 2)
                  (t :: r.1, r.2)
                else ([], supply)
            | none => matchLoopBuy order asks now fuel remaining supply
        | _ => ([], supply)
      | none => ([], supply)
    else ([], supply)

/-- Embeds the Sell arm of the while loop in MatchingEngine::match_order
(src/engine.rs lines 181-228), matching against bids.first() with the
crossing test price ≤ best_bid.price. -/
def matchLoopSell (order : Order) (bids : List OrderBookEntry)
    (now : Timestamp) : Nat → Decimal → Nat → List Trade × Nat
  | 0, _, supply => ([], supply)
  | fuel + 1, remaining, supply =>
    if 0 < remaining then
      match bids.head? with
      | some best_bid =>
        match order.order_type with
        | .Market =>
            let tq := min remaining best_bid.quantity
            let t := create_trade order best_bid.price tq .Sell supply now
            let r := matchLoopSell order bids now fuel (remaining - tq) (supply + 2)
            (t :: r.1, r.2)
        | .Limit =>
            match order.price with
            | some p =>
                if p ≤ best_bid.price then
                  let tq := min remaining best_bid.quantity
                  let t := create_trade order best_bid.price tq .Sell supply now
                  let r := matchLoopSell order bids now fuel (remaining - tq) (supply + 2)
                  (t :: r.1, r.2)
                else ([], supply)
            | none => matchLoopSell order bids now fuel remaining supply
        | _ => ([], supply)
      | none => ([], supply)
    else ([], supply)

/-- The opposing side of the book, as selected by the match on order.side
in match_order: a Buy order matches against asks, a Sell against bids. -/
def oppositeEntries (book : OrderBook) : OrderSide → List OrderBookEntry
  | .Buy => book.asks
  | .Sell => book.bids

/-- Embeds MatchingEngine::match_order of src/engine.rs lines 137-233:
look up the symbol's book in order_books (if absent, no trades), then run
the crossing loop against the opposing side starting from
remaining_quantity = order.quantity. Returns the trades in creation order
and the final uuid supply. -/
def match_order (st : EngineState) (order : Order) (now : Timestamp)
    (fuel : Nat) : List Trade × Nat :=
  match assocLookup order.symbol st.order_books with
  | none => ([], st.fresh)
  | some book =>
    match order.side with
    | .Buy => matchLoopBuy order book.asks now fuel order.quantity st.fresh
    | .Sell => matchLoopSell order book.bids now fuel order.quantity st.fresh

/-- Each trade is inserted into self.trades as create_trade runs
(src/engine.rs line 252); the insertions are replayed in creation order. -/
def insertTrades (ts : List Trade) (m : List (Uuid × Trade)) :
    List (Uuid × Trade) :=
  ts.foldl (fun m t => assocInsert t.id t m) m

/-- Embeds MatchingEngine::handle_place_order of src/engine.rs lines
34-96: validate; build the Order; store it in orders; start the event
list with OrderPlaced; run match_order; append an OrderMatched event per
trade; save all events to the store; return the events. No other event
kind is ever produced, nothing is inserted into order_books, and there is
no duplicate-id check. -/
def handle_place_order (st : EngineState) (cmd : PlaceOrderCommand)
    (now : Timestamp) (fuel : Nat) : CmdResult × EngineState :=
  match validate_order cmd with
  | .error e => (.err e, st)
  | .ok _ =>
    let order := orderOfCmd cmd
    let st1 : EngineState := { st with orders := assocInsert order.id order st.orders }
    let mr := match_order st1 order now fuel
    let st2 : EngineState := { st1 with trades := insertTrades mr.1 st1.trades, fresh := mr.2 }
    let events := OrderEvent.OrderPlaced (placedEventOf order) ::
      mr.1.map (fun t => OrderEvent.OrderMatched (matchedEventOf t))
    let st3 : EngineState := { st2 with event_log := saveEvents events st2.event_log }
    (.ok events, st3)

/-- Embeds MatchingEngine::handle_cancel_order of src/engine.rs lines
98-104: the body is todo!(), an unconditional panic, executed before any
state is touched. -/
def handle_cancel_order (st : EngineState) (_cmd : CancelOrderCommand) :
    CmdResult × EngineState :=
  (.panicked, st)

/-- Embeds MatchingEngine::handle_command of src/engine.rs lines 27-32. -/
def handle_command (st : EngineState) (c : OrderCommand) (now : Timestamp)
    (fuel : Nat) : CmdResult × EngineState :=
  match c with
  | .PlaceOrder cmd => handle_place_order st cmd now fuel
  | .CancelOrder cmd => handle_cancel_order st cmd

/-- Runs a sequence of handle_command invocations, each with its own wall
clock reading and loop fuel, threading the engine state. -/
def runCommands (st : EngineState) :
    List (OrderCommand × Timestamp × Nat) → EngineState
  | [] => st
  | (c, now, fuel) :: rest => runCommands (handle_command st c now fuel).2 rest

/-- Embeds MatchingEngine::get_order_book of src/engine.rs lines 256-258. -/
def get_order_book (st : EngineState) (symbol : String) : Option OrderBook :=
  assocLookup symbol st.order_books

/-- Embeds MatchingEngine::get_order of src/engine.rs lines 260-262. -/
def get_order (st : EngineState) (order_id : Uuid) : Option Order :=
  assocLookupId order_id st.orders

/-
Skip list of src/orderbook.rs. Nodes are Rc-RefCell cells forming one
singly linked chain per level; the heap is modelled as a store of nodes
addressed by index, with the head at index 0.
-/

/-- Embeds struct Node of src/orderbook.rs (the resting-order vector is
irrelevant to the search loop and omitted): a price and, per level, an
optional pointer to the next node, modelled as a store index. -/
structure SkipNodeM where
  price : Decimal
  next : List (Option Nat)
  deriving DecidableEq

/-- The node heap: node pointers are indices into this list. -/
abbrev NodeStore := List SkipNodeM

/-- MAX_LEVEL of src/orderbook.rs. -/
def MAX_LEVEL : Nat := 32

/-- Decimal::MIN of rust_decimal, the sentinel price of the head node
created by SkipListOrderBook::new. -/
def decimalMin : Decimal := -79228162514264337593543950335

/-- The pointer node.next[level] read by the search loop; none both for a
null pointer and for a dangling index (well-formed stores have no
dangling indices). -/
def nextOf (store : NodeStore) (idx level : Nat) : Option Nat :=
  match store[idx]? with
  | some node => (node.next[level]?).join
  | none => none

/-- The price of the node at an index. -/
def priceAt (store : NodeStore) (idx : Nat) : Option Decimal :=
  (store[idx]?).map SkipNodeM.price

/-- Embeds the inner search loop of SkipListOrderBook::add_order
(src/orderbook.rs lines 73-82):

  while let Some(node) = current.clone() \x7b
      if let Some(next) = node.borrow().next[level].clone() \x7b
          if next.borrow().price > price \x7b break; \x7d
          current = Some(next);
      \x7d
  \x7d

current is never set to None inside the loop, so the loop exits only via
the break, i.e. only when the next pointer exists and its price exceeds
the insertion price. When next[level] is None the iteration neither
breaks nor advances. Fuel-indexed: some cur means the loop exited with
that node as current within the given number of iterations; none means it
was still running when the fuel ran out. -/
def levelSearch (store : NodeStore) (level : Nat) (price : Decimal) :
    Nat → Nat → Option Nat
  | 0, _ => none
  | fuel + 1, cur =>
    match nextOf store cur level with
    | none => levelSearch store level price fuel cur
    | some nxt =>
      match priceAt store nxt with
      | some np => if price < np then some cur else levelSearch store level price fuel nxt
      | none => levelSearch store level price fuel cur

/-- The node heap right after SkipListOrderBook::new (src/orderbook.rs
lines 42-49): a single head node at price Decimal::MIN whose MAX_LEVEL
next pointers are all None; the list level starts at 1, so add_order's
outer loop runs the search exactly at level 0. -/
def emptyBookStore : NodeStore :=
  [{ price := decimalMin, next := List.replicate MAX_LEVEL none }]

/-
Concrete fixtures used by the claim theorems.
-/

/-- A Buy Limit PlaceOrder command: price 100, quantity 1, symbol S. -/
def cmdBuy : PlaceOrderCommand :=
  { order_id := 1, user_id := 11, symbol := "S", order_type := .Limit,
    side := .Buy, price := some 100, quantity := 1,
    iceberg_visible_quantity := none, stop_price := none,
    trailing_stop_price := none, timestamp := 0 }

/-- The matching Sell Limit PlaceOrder command: price 100, quantity 1. -/
def cmdSell : PlaceOrderCommand :=
  { order_id := 2, user_id := 12, symbol := "S", order_type := .Limit,
    side := .Sell, price := some 100, quantity := 1,
    iceberg_visible_quantity := none, stop_price := none,
    trailing_stop_price := none, timestamp := 1 }

/-- A Buy Market PlaceOrder command of quantity 1 (price absent). -/
def cmdMarketBuy : PlaceOrderCommand :=
  { order_id := 3, user_id := 13, symbol := "S", order_type := .Market,
    side := .Buy, price := none, quantity := 1,
    iceberg_visible_quantity := none, stop_price := none,
    trailing_stop_price := none, timestamp := 0 }

/-- A Buy Limit PlaceOrder command with quantity 0 (non-positive). -/
def cmdZeroQty : PlaceOrderCommand :=
  { order_id := 4, user_id := 14, symbol := "S", order_type := .Limit,
    side := .Buy, price := some 100, quantity := 0,
    iceberg_visible_quantity := none, stop_price := none,
    trailing_stop_price := none, timestamp := 0 }

/-- The OrderPlaced payload produced for cmdBuy. -/
def placedBuy : OrderPlacedEvent :=
  { order_id := 1, user_id := 11, symbol := "S", order_type := .Limit,
    side := .Buy, price := some 100, quantity := 1, status := .Pending,
    timestamp := 0 }

/-- Engine state after placing cmdBuy on a fresh engine. -/
def stAfterBuy : EngineState :=
  (handle_command initEngine (.PlaceOrder cmdBuy) 0 10).2

/-- A resting maker order: Sell Limit 100 quantity 1, id 5 (the order
whose level entry sits on the ask side of hypoState). -/
def makerOrder : Order :=
  { id := 5, user_id := 15, symbol := "S", order_type := .Limit,
    side := .Sell, price := some 100, quantity := 1, filled_quantity := 0,
    status := .Active, created_at := 0, updated_at := 0,
    iceberg_visible_quantity := none, stop_price := none,
    trailing_stop_price := none }

/-- A book for S with one ask level entry at price 100 quantity 1 (the
kind of book the engine would need for match_order to produce a trade;
reachable states never hold one, see the C2 theorem). -/
def hypoBook : OrderBook :=
  { symbol := "S", bids := [],
    asks := [{ price := 100, quantity := 1, order_count := 1 }] }

/-- A hypothetical engine state holding hypoBook under symbol S and the
resting maker order in orders; the uuid supply starts at 100. -/
def hypoState : EngineState :=
  { order_books := [("S", hypoBook)],
    orders := [(5, makerOrder)],
    trades := [], event_log := [], fresh := 100 }

/-- The aggressing taker: Buy Limit 100 quantity 1, id 7. -/
def takerOrder : Order :=
  { id := 7, user_id := 17, symbol := "S", order_type := .Limit,
    side := .Buy, price := some 100, quantity := 1, filled_quantity := 0,
    status := .Pending, created_at := 0, updated_at := 0,
    iceberg_visible_quantity := none, stop_price := none,
    trailing_stop_price := none }

/-- The single trade match_order produces from hypoState and takerOrder:
priced at the maker level's 100, with both trade id and maker_order_id
drawn fresh from the supply (100 and 101). -/
def hypoTrade : Trade :=
  { id := 100, symbol := "S", price := 100, quantity := 1, side := .Buy,
    taker_order_id := 7, maker_order_id := 101, created_at := 0 }

/-- The OrderPlaced payload produced for cmdMarketBuy. -/
def placedMarketBuy : OrderPlacedEvent :=
  { order_id := 3, user_id := 13, symbol := "S", order_type := .Market,
    side := .Buy, price := none, quantity := 1, status := .Pending,
    timestamp := 0 }

/-- The OrderPlaced payload produced for cmdZeroQty. -/
def placedZero : OrderPlacedEvent :=
  { order_id := 4, user_id := 14, symbol := "S", order_type := .Limit,
    side := .Buy, price := some 100, quantity := 0, status := .Pending,
    timestamp := 0 }

/-- The OrderPlaced payload produced for cmdSell. -/
def placedSell : OrderPlacedEvent :=
  { order_id := 2, user_id := 12, symbol := "S", order_type := .Limit,
    side := .Sell, price := some 100, quantity := 1, status := .Pending,
    timestamp := 1 }

/-
Helper lemmas.
-/

/-- handle_place_order never writes to order_books: every state update in
its body changes only orders, trades, fresh, or event_log. -/
theorem place_order_books_eq (st : EngineState) (cmd : PlaceOrderCommand)
    (now : Timestamp) (fuel : Nat) :
    (handle_place_order st cmd now fuel).2.order_books = st.order_books := by
  unfold handle_place_order
  cases h : validate_order cmd <;> simp

/-- handle_command never writes to order_books (cancel panics before
touching any state). -/
theorem command_order_books_eq (st : EngineState) (c : OrderCommand)
    (now : Timestamp) (fuel : Nat) :
    (handle_command st c now fuel).2.order_books = st.order_books := by
  cases c with
  | PlaceOrder cmd => exact place_order_books_eq st cmd now fuel
  | CancelOrder cmd => rfl

/-- Running any command sequence leaves order_books exactly as it
started. -/
theorem run_order_books_eq (cs : List (OrderCommand × Timestamp × Nat))
    (st : EngineState) : (runCommands st cs).order_books = st.order_books := by
  induction cs generalizing st with
  | nil => rfl
  | cons c rest ih =>
      obtain ⟨c, now, fuel⟩ := c
      calc (runCommands (handle_command st c now fuel).2 rest).order_books
          = (handle_command st c now fuel).2.order_books := ih _
        _ = st.order_books := command_order_books_eq st c now fuel

/-- Every trade the Buy matching loop pushes is priced at the first ask
entry (the book is never advanced, so asks.first() is constant), and a
Limit taker only ever trades at or below its own limit price. -/
theorem matchLoopBuy_spec (order : Order) (asks : List OrderBookEntry)
    (now : Timestamp) :
    ∀ fuel remaining supply t,
      t ∈ (matchLoopBuy order asks now fuel remaining supply).1 →
      ∃ e, asks.head? = some e ∧ t.price = e.price ∧
        (∀ p, order.order_type = OrderType.Limit → order.price = some p →
          t.price ≤ p) := by
  intro fuel
  induction fuel with
  | zero =>
      intro remaining supply t ht
      simp [matchLoopBuy] at ht
  | succ fuel ih =>
      intro remaining supply t ht
      rw [matchLoopBuy] at ht
      split at ht
      · split at ht
        · rename_i best hbest
          split at ht
          · rename_i hmkt
            rcases List.mem_cons.mp ht with h | h
            · subst h
              refine ⟨best, hbest, rfl, ?_⟩
              intro p htype _
              rw [hmkt] at htype
              cases htype
            · exact ih _ _ t h
          · rename_i hlim
            split at ht
            · rename_i p hp
              split at ht
              · rename_i hcross
                rcases List.mem_cons.mp ht with h | h
                · subst h
                  refine ⟨best, hbest, rfl, ?_⟩
                  intro p2 _ hp2
                  rw [hp] at hp2
                  cases hp2
                  exact hcross
                · exact ih _ _ t h
              · simp at ht
            · exact ih _ _ t ht
          · simp at ht
        · simp at ht
      · simp at ht

/-- Every trade the Sell matching loop pushes is priced at the first bid
entry, and a Limit taker only ever trades at or above its own limit
price. -/
theorem matchLoopSell_spec (order : Order) (bids : List OrderBookEntry)
    (now : Timestamp) :
    ∀ fuel remaining supply t,
      t ∈ (matchLoopSell order bids now fuel remaining supply).1 →
      ∃ e, bids.head? = some e ∧ t.price = e.price ∧
        (∀ p, order.order_type = OrderType.Limit → order.price = some p →
          p ≤ t.price) := by
  intro fuel
  induction fuel with
  | zero =>
      intro remaining supply t ht
      simp [matchLoopSell] at ht
  | succ fuel ih =>
      intro remaining supply t ht
      rw [matchLoopSell] at ht
      split at ht
      · split at ht
        · rename_i best hbest
          split at ht
          · rename_i hmkt
            rcases List.mem_cons.mp ht with h | h
            · subst h
              refine ⟨best, hbest, rfl, ?_⟩
              intro p htype _
              rw [hmkt] at htype
              cases htype
            · exact ih _ _ t h
          · rename_i hlim
            split at ht
            · rename_i p hp
              split at ht
              · rename_i hcross
                rcases List.mem_cons.mp ht with h | h
                · subst h
                  refine ⟨best, hbest, rfl, ?_⟩
                  intro p2 _ hp2
                  rw [hp] at hp2
                  cases hp2
                  exact hcross
                · exact ih _ _ t h
              · simp at ht
            · exact ih _ _ t ht
          · simp at ht
        · simp at ht
      · simp at ht

/-- The head node of the freshly created skip list has a null level-0
next pointer. -/
theorem nextOf_emptyBookStore : nextOf emptyBookStore 0 0 = none := rfl

/-
Claim theorems.
-/

/-- Claim C1: the claim states that Buy Limit 100 qty 1 followed by Sell
Limit 100 qty 1 yields one trade and the events OrderPlaced,
OrderMatched, OrderFilled for the sell. The code disagrees: the buy is
never inserted into any book (order_books stays empty), so the sell
matches nothing: its event list is exactly [OrderPlaced] and the trades
map stays empty. -/
theorem basic_match_produces_no_trade :
    (handle_command stAfterBuy (.PlaceOrder cmdSell) 1 10).1 =
      CmdResult.ok [OrderEvent.OrderPlaced placedSell]
    ∧ (handle_command stAfterBuy (.PlaceOrder cmdSell) 1 10).2.trades = [] := by
  decide

/-- Claim C2: starting from a fresh MatchingEngine, no handle_command
sequence ever inserts a symbol book into order_books; hence
get_order_book is None for every symbol and match_order returns an empty
trade list in every reachable state. -/
theorem order_books_never_populated (cs : List (OrderCommand × Timestamp × Nat)) :
    (runCommands initEngine cs).order_books = []
    ∧ (∀ symbol, get_order_book (runCommands initEngine cs) symbol = none)
    ∧ (∀ order now fuel,
        (match_order (runCommands initEngine cs) order now fuel).1 = []) := by
  have hb : (runCommands initEngine cs).order_books = [] :=
    run_order_books_eq cs initEngine
  refine ⟨hb, ?_, ?_⟩
  · intro symbol
    simp [get_order_book, hb, assocLookup]
  · intro order now fuel
    simp [match_order, hb, assocLookup]

/-- Claim C3: the claim states that an unfilled Limit residual is
inserted into the book on its own side, with OrderPartiallyFilled or
OrderFilled emitted as appropriate. The code disagrees: after placing a
Buy Limit with its full quantity unfilled, the event list is exactly
[OrderPlaced] (no fill events exist anywhere in handle_place_order) and
order_books is still empty, so nothing rests. -/
theorem limit_residual_not_inserted :
    (handle_command initEngine (.PlaceOrder cmdBuy) 0 10).1 =
      CmdResult.ok [OrderEvent.OrderPlaced placedBuy]
    ∧ stAfterBuy.order_books = []
    ∧ get_order_book stAfterBuy "S" = none := by
  decide

/-- Claim C4: the claim states that a trade's maker_order_id equals the
id of the resting order matched against. The code disagrees: create_trade
draws maker_order_id fresh from the uuid source (the source comment reads
"This should be the matched order's ID", and the book entry matched
against carries no order id at all). With the resting maker order id 5
and the supply at 100, the produced trade records maker_order_id 101. -/
theorem maker_order_id_is_fresh_uuid :
    (match_order hypoState takerOrder 0 1).1 = [hypoTrade]
    ∧ hypoTrade.maker_order_id = 101
    ∧ makerOrder.id = 5
    ∧ hypoTrade.maker_order_id ≠ makerOrder.id := by
  decide

/-- Claim C5: every trade produced by the matching loop is priced at the
book entry it matched against, namely the first entry of the opposing
side (the loop never advances the book, so that entry is the resting
maker level), and a Limit taker never trades through its own limit: a Buy
taker trades at or below its limit, a Sell taker at or above. -/
theorem match_order_trade_at_maker_price (st : EngineState) (order : Order)
    (now : Timestamp) (fuel : Nat) (t : Trade)
    (ht : t ∈ (match_order st order now fuel).1) :
    ∃ book e, assocLookup order.symbol st.order_books = some book ∧
      (oppositeEntries book order.side).head? = some e ∧ t.price = e.price ∧
      (∀ p, order.order_type = OrderType.Limit → order.price = some p →
        ((order.side = OrderSide.Buy → t.price ≤ p) ∧
         (order.side = OrderSide.Sell → p ≤ t.price))) := by
  unfold match_order at ht
  cases hlk : assocLookup order.symbol st.order_books with
  | none => rw [hlk] at ht; simp at ht
  | some book =>
      rw [hlk] at ht
      cases hside : order.side with
      | Buy =>
          simp only [hside] at ht
          obtain ⟨e, he, hpe, hbound⟩ :=
            matchLoopBuy_spec order book.asks now fuel order.quantity st.fresh t ht
          refine ⟨book, e, rfl, he, hpe, ?_⟩
          intro p h1 h2
          exact ⟨fun _ => hbound p h1 h2, fun hs => by cases hs⟩
      | Sell =>
          simp only [hside] at ht
          obtain ⟨e, he, hpe, hbound⟩ :=
            matchLoopSell_spec order book.bids now fuel order.quantity st.fresh t ht
          refine ⟨book, e, rfl, he, hpe, ?_⟩
          intro p h1 h2
          exact ⟨(fun hs => by cases hs), fun _ => hbound p h1 h2⟩

/-- Witness for C5: in hypoState (one ask level at 100), the Buy Limit
100 taker produces hypoTrade, which is priced at the ask entry's 100 and
does not exceed the taker's limit. -/
theorem match_order_trade_at_maker_price_witness :
    hypoTrade ∈ (match_order hypoState takerOrder 0 1).1
    ∧ (∃ book e, assocLookup takerOrder.symbol hypoState.order_books = some book ∧
        (oppositeEntries book takerOrder.side).head? = some e ∧
        hypoTrade.price = e.price ∧
        (∀ p, takerOrder.order_type = OrderType.Limit →
          takerOrder.price = some p →
          ((takerOrder.side = OrderSide.Buy → hypoTrade.price ≤ p) ∧
           (takerOrder.side = OrderSide.Sell → p ≤ hypoTrade.price)))) :=
  ⟨by decide,
   match_order_trade_at_maker_price hypoState takerOrder 0 1 hypoTrade (by decide)⟩

/-- Claim C6: the claim states that a Market order with residual quantity
against an exhausted opposite side ends with an OrderCanceled event. The
code disagrees: a Buy Market qty 1 against an empty ask side returns
exactly [OrderPlaced]; handle_place_order constructs no OrderCanceled
event on any path. -/
theorem market_exhaustion_not_canceled :
    (handle_command initEngine (.PlaceOrder cmdMarketBuy) 0 10).1 =
      CmdResult.ok [OrderEvent.OrderPlaced placedMarketBuy] := by
  decide

/-- Claim C7: the claim states that CancelOrder removes a resting order
and emits OrderCanceled, or returns an UnknownOrder error for an unknown
id. The code disagrees: handle_cancel_order is todo!(), so every
CancelOrder command panics unconditionally, for every engine state. -/
theorem cancel_order_always_panics (st : EngineState)
    (cmd : CancelOrderCommand) (now : Timestamp) (fuel : Nat) :
    handle_command st (.CancelOrder cmd) now fuel = (CmdResult.panicked, st) :=
  rfl

/-- Claim C8: the claim states that resubmitting an identical PlaceOrder
is an idempotent success with no state change. The code disagrees: there
is no duplicate-id check, and although the second submission happens to
return the same event list here, it appends a second copy of the
OrderPlaced event to the store, so the engine state does change. -/
theorem duplicate_place_order_changes_state :
    (handle_command stAfterBuy (.PlaceOrder cmdBuy) 0 10).1 =
      CmdResult.ok [OrderEvent.OrderPlaced placedBuy]
    ∧ stAfterBuy.event_log = [(1, [OrderEvent.OrderPlaced placedBuy])]
    ∧ (handle_command stAfterBuy (.PlaceOrder cmdBuy) 0 10).2.event_log =
        [(1, [OrderEvent.OrderPlaced placedBuy, OrderEvent.OrderPlaced placedBuy])]
    ∧ (handle_command stAfterBuy (.PlaceOrder cmdBuy) 0 10).2 ≠ stAfterBuy := by
  decide

/-- Claim C9: the claim states that a PlaceOrder with non-positive
quantity is rejected with a ValidationError, no events, no state change.
The code disagrees: validate_order never inspects quantity, so a Limit
order with quantity 0 validates, returns Ok([OrderPlaced]) and is stored
in the orders map. -/
theorem zero_quantity_order_accepted :
    validate_order cmdZeroQty = Except.ok ()
    ∧ (handle_command initEngine (.PlaceOrder cmdZeroQty) 0 10).1 =
        CmdResult.ok [OrderEvent.OrderPlaced placedZero]
    ∧ get_order (handle_command initEngine (.PlaceOrder cmdZeroQty) 0 10).2 4 =
        some (orderOfCmd cmdZeroQty) := by
  refine ⟨rfl, ?_, ?_⟩ <;> decide

/-- Claim C10: the claim states that SkipListOrderBook::add_order always
terminates. The code disagrees: on the book produced by new() (reachable
by zero insertions), the level-0 search loop of add_order spins forever,
because the head's next pointer is None and a None next pointer neither
breaks out of the loop nor advances current. Formally, the fuel-indexed
search never exits, for every fuel bound and every insertion price. -/
theorem add_order_search_never_exits (fuel : Nat) (p : Decimal) :
    levelSearch emptyBookStore 0 p fuel 0 = none := by
  induction fuel with
  | zero => rfl
  | succ fuel ih =>
      rw [levelSearch, nextOf_emptyBookStore]
      exact ih

end MatchEngine
